import Mathlib

/-!
# Verification of `anomalib/models/image/dfm/lightning_model.py`

A shallow embedding of the `Dfm` Lightning module (Deep Feature Modeling).
The file under `src/` contains only the Lightning wrapper; the torch model
(`DFMModel` in `torch_model.py`), the `Batch` dataclass and the
`LearningType` enum are other modules of the same repository, so they are
modelled from the spec where needed.  Tensors are modelled as rose trees of
integers, faithful to the rank-changing torch operations (`squeeze`,
`vstack`) that the wrapper calls.
-/

namespace DfmSpec

/-- A torch tensor, modelled as a rose tree: a rank-0 scalar or a list of
subtensors along the leading dimension. -/
inductive Tensor where
  | scalar (x : Int) : Tensor
  | dim (ts : List Tensor) : Tensor
deriving Repr

/-- Rank (number of dimensions) of a tensor, reading the leading branch. -/
def Tensor.rank : Tensor → Nat
  | .scalar _ => 0
  | .dim [] => 1
  | .dim (t :: _) => 1 + t.rank

/-- `torch.Tensor.squeeze()`: remove every dimension of size 1. -/
def Tensor.squeeze : Tensor → Tensor
  | .scalar x => .scalar x
  | .dim [t] => t.squeeze
  | .dim ts => .dim (ts.attach.map fun t => t.1.squeeze)
decreasing_by
  · simp only [Tensor.dim.sizeOf_spec, List.cons.sizeOf_spec, List.nil.sizeOf_spec]
    omega
  · have h := List.sizeOf_lt_of_mem t.2
    simp only [Tensor.dim.sizeOf_spec]
    omega

/-- `torch.atleast_2d`: promote scalars and 1-D tensors to 2-D. -/
def Tensor.atleast2d (t : Tensor) : Tensor :=
  match t with
  | .scalar x => .dim [.dim [.scalar x]]
  | .dim ts => if (Tensor.dim ts).rank = 1 then .dim [.dim ts] else .dim ts

/-- Leading-dimension slices of a tensor (rows of a 2-D tensor). -/
def Tensor.rows : Tensor → List Tensor
  | .scalar x => [.scalar x]
  | .dim ts => ts

/-- `torch.vstack`: raises on an empty tensor list, otherwise promotes each
tensor to at least 2-D and concatenates along the first dimension. -/
def vstack (ts : List Tensor) : Except String Tensor :=
  match ts with
  | [] => .error "vstack expects a non-empty TensorList"
  | _ => .ok (.dim (ts.flatMap fun t => t.atleast2d.rows))

/-- The model's prediction for a batch: the `InferenceBatch` named tuple
returned by `DFMModel.forward`, holding anomaly scores and anomaly maps. -/
structure Prediction where
  pred_score : Tensor
  anomaly_map : Tensor
deriving Repr

/-- Modelled from the spec: the `Batch` dataclass of `anomalib.data` (not
under `src/`), an input image together with the optional prediction fields
that inference fills in. -/
structure Batch where
  image : Tensor
  pred_score : Option Tensor := none
  anomaly_map : Option Tensor := none
deriving Repr

/-- Modelled from the spec: `Batch.update(**predictions._asdict())` (not
under `src/`) overwrites the batch's prediction fields with every field of
the prediction and returns the same batch so updated. -/
def Batch.update (b : Batch) (p : Prediction) : Batch :=
  { b with pred_score := some p.pred_score, anomaly_map := some p.anomaly_map }

/-- Modelled from the spec: the `DFMModel` torch module built in
`Dfm.__init__` (its file `torch_model.py` is not under `src/`).  It stores
the constructor arguments, carries the pretrained backbone's feature
extractor and its forward pass as opaque collaborator functions, and
records the data it was fitted on. -/
structure DFMModel where
  backbone : String
  pre_trained : Bool
  layer : String
  pooling_kernel_size : Int
  n_comps : Rat
  score_type : String
  get_features : Tensor → Tensor
  forward : Tensor → Prediction
  fitted : Option Tensor := none

/-- Modelled from the spec: `DFMModel.fit` (not under `src/`) fits the PCA
transform and the Gaussian/FRE density model to the stacked embeddings; we
record the training data it received. -/
def DFMModel.fit (m : DFMModel) (dataset : Tensor) : DFMModel :=
  { m with fitted := some dataset }

/-- The `LearningType` enum of the `anomalib` package (not under `src/`). -/
inductive LearningType where
  | ONE_CLASS
  | ZERO_SHOT
  | FEW_SHOT
deriving Repr, DecidableEq

/-- State of a `Dfm` Lightning module: the attributes set in
`Dfm.__init__` (`lightning_model.py`, lines 57-66). -/
structure Dfm where
  model : DFMModel
  embeddings : List Tensor
  score_type : String

/-- `Dfm.__init__` (`lightning_model.py`, lines 44-66): builds the
`DFMModel` from the constructor arguments, starts with an empty embedding
list, and stores `score_type`.  The backbone's feature extractor and the
torch model's forward pass are taken as explicit collaborator functions. -/
def Dfm.init (gf : Tensor → Tensor) (fwd : Tensor → Prediction)
    (backbone : String := "resnet50") (layer : String := "layer3")
    (pre_trained : Bool := true) (pooling_kernel_size : Int := 4)
    (pca_level : Rat := 97/100) (score_type : String := "fre") : Dfm :=
  { model :=
      { backbone := backbone
        pre_trained := pre_trained
        layer := layer
        pooling_kernel_size := pooling_kernel_size
        n_comps := pca_level
        score_type := score_type
        get_features := gf
        forward := fwd }
    embeddings := []
    score_type := score_type }

/-- `Dfm.configure_optimizers` (lines 68-71): a static method that returns
`None` — no optimizers. -/
def Dfm.configure_optimizers : Option Unit := none

/-- `Dfm.training_step` (lines 73-89): extract features of the batch image
with the backbone, squeeze, and append to `self.embeddings`; the method
body ends without a `return`, so the step returns `None`. -/
def Dfm.training_step (s : Dfm) (batch : Batch) : Dfm × Option Unit :=
  let embedding := (s.model.get_features batch.image).squeeze
  ({ s with embeddings := s.embeddings ++ [embedding] }, none)

/-- `Dfm.fit` (lines 91-97): stack the collected embeddings with
`torch.vstack`, then fit the torch model on the stacked tensor.  An
exception from `vstack` propagates and the model is not fitted. -/
def Dfm.fit (s : Dfm) : Except String Dfm :=
  match vstack s.embeddings with
  | .error e => .error e
  | .ok embeddings => .ok { s with model := s.model.fit embeddings }

/-- `Dfm.validation_step` (lines 99-115): run the fitted model on the batch
image and return the batch updated with all prediction fields. -/
def Dfm.validation_step (s : Dfm) (batch : Batch) : Dfm × Batch :=
  let predictions := s.model.forward batch.image
  (s, batch.update predictions)

/-- `Dfm.trainer_arguments` (lines 117-120): the DFM-specific trainer
arguments, as an association list with the dictionary's insertion order. -/
def Dfm.trainer_arguments (_s : Dfm) : List (String × Int) :=
  [("gradient_clip_val", 0), ("max_epochs", 1), ("num_sanity_val_steps", 0)]

/-- `Dfm.learning_type` (lines 122-129): always `LearningType.ONE_CLASS`. -/
def Dfm.learning_type (_s : Dfm) : LearningType :=
  LearningType.ONE_CLASS

/-! ### Concrete instances used by the witnesses -/

/-- A concrete stand-in for the backbone's feature extractor. -/
def exGetFeatures : Tensor → Tensor := fun t => t

/-- A concrete stand-in for the torch model's forward pass. -/
def exForward : Tensor → Prediction := fun t => { pred_score := t, anomaly_map := t }

/-- A freshly constructed `Dfm` with the Python default arguments. -/
def exDfm : Dfm := Dfm.init exGetFeatures exForward

/-- A concrete 2-by-2 input batch. -/
def exBatch : Batch :=
  { image := .dim [.dim [.scalar 1, .scalar 2], .dim [.scalar 3, .scalar 4]] }

/-! ### Helper lemmas -/

/-- One `training_step` application, as a state transformer. -/
def trainStep (s : Dfm) (b : Batch) : Dfm := (s.training_step b).1

/-- Folding `training_step` over a list of batches leaves `model` and
`score_type` unchanged and appends the squeezed features of each batch, in
batch order, to the embedding list. -/
theorem trainStep_fold (s : Dfm) (batches : List Batch) :
    (batches.foldl trainStep s).model = s.model ∧
    (batches.foldl trainStep s).score_type = s.score_type ∧
    (batches.foldl trainStep s).embeddings
      = s.embeddings ++ batches.map fun b => (s.model.get_features b.image).squeeze := by
  induction batches generalizing s with
  | nil => simp
  | cons b bs ih =>
    have h := ih (trainStep s b)
    simp only [List.foldl_cons]
    refine ⟨h.1, h.2.1, ?_⟩
    rw [h.2.2]
    simp [trainStep, Dfm.training_step, List.map_cons]

/-! ### Claims -/

/-- C1: `fit()` performs exactly two steps in order — it stacks the
collected embeddings with `torch.vstack` (in the order `training_step`
appended them) and then calls `self.model.fit` on the stacked tensor; it
performs no other transformation of the embeddings or of any other state. -/
theorem Dfm.fit_stacks_then_fits (s : Dfm) :
    s.fit = (vstack s.embeddings).map (fun t => { s with model := s.model.fit t }) ∧
    ∀ batches : List Batch,
      (batches.foldl trainStep s).embeddings
        = s.embeddings ++ batches.map fun b => (s.model.get_features b.image).squeeze := by
  constructor
  · unfold Dfm.fit
    cases vstack s.embeddings <;> rfl
  · intro batches
    exact (trainStep_fold s batches).2.2

/-- C2: `training_step` computes the batch embedding solely as
`self.model.get_features(batch.image)` followed by `squeeze()`, appends
exactly one element to `self.embeddings`, and returns `None` — no other
computation or optimization. -/
theorem Dfm.training_step_spec (s : Dfm) (b : Batch) :
    s.training_step b
      = ({ s with
            embeddings := s.embeddings ++ [(s.model.get_features b.image).squeeze] },
         none) ∧
    (s.training_step b).1.embeddings.length = s.embeddings.length + 1 := by
  refine ⟨rfl, ?_⟩
  simp [Dfm.training_step]

/-- C3: `validation_step` scores the batch by running the fitted model on
`batch.image` and returns the input batch updated with every field of the
prediction — the same batch, with its `image` untouched and the prediction
fields overwritten. -/
theorem Dfm.validation_step_spec (s : Dfm) (b : Batch) :
    s.validation_step b = (s, b.update (s.model.forward b.image)) ∧
    (s.validation_step b).2.image = b.image ∧
    (s.validation_step b).2.pred_score = some (s.model.forward b.image).pred_score ∧
    (s.validation_step b).2.anomaly_map = some (s.model.forward b.image).anomaly_map :=
  ⟨rfl, rfl, rfl, rfl⟩

/-- C4: the constructor forwards `score_type` unchanged to the `DFMModel`
it builds and stores it as `self.score_type`, for every string, with no
validation rejecting any value. -/
theorem Dfm.init_forwards_score_type (gf : Tensor → Tensor)
    (fwd : Tensor → Prediction) (backbone layer : String) (pt : Bool)
    (pks : Int) (pca : Rat) (st : String) :
    (Dfm.init gf fwd backbone layer pt pks pca st).model.score_type = st ∧
    (Dfm.init gf fwd backbone layer pt pks pca st).score_type = st :=
  ⟨rfl, rfl⟩

/-- C5: `configure_optimizers` returns `None` unconditionally — the model
performs no gradient-based optimization of its own. -/
theorem Dfm.configure_optimizers_none :
    Dfm.configure_optimizers = none := rfl

/-- C6: `learning_type` returns `LearningType.ONE_CLASS` for every
instance, regardless of constructor arguments or state. -/
theorem Dfm.learning_type_one_class (s : Dfm) :
    s.learning_type = LearningType.ONE_CLASS := rfl

/-- C7: the lifecycle operations are deterministic — equal states and
equal inputs give equal results for `training_step`, `fit` and
`validation_step`. -/
theorem Dfm.lifecycle_deterministic (s₁ s₂ : Dfm) (b₁ b₂ : Batch)
    (hs : s₁ = s₂) (hb : b₁ = b₂) :
    s₁.training_step b₁ = s₂.training_step b₂ ∧
    s₁.fit = s₂.fit ∧
    s₁.validation_step b₁ = s₂.validation_step b₂ := by
  subst hs; subst hb
  exact ⟨rfl, rfl, rfl⟩

/-- C7 witness: determinism instantiated at a concrete state and batch. -/
theorem Dfm.lifecycle_deterministic_witness :
    exDfm.training_step exBatch = exDfm.training_step exBatch ∧
    exDfm.fit = exDfm.fit ∧
    exDfm.validation_step exBatch = exDfm.validation_step exBatch :=
  Dfm.lifecycle_deterministic exDfm exDfm exBatch exBatch rfl rfl

/-- C8: on an empty embedding list, `fit()` raises the `vstack` error and
no fitted state is produced; conversely `fit()` can only succeed when at
least one embedding has been collected. -/
theorem Dfm.fit_requires_embeddings (s : Dfm) :
    (s.embeddings = [] → s.fit = .error "vstack expects a non-empty TensorList") ∧
    ∀ s' : Dfm, s.fit = .ok s' → s.embeddings ≠ [] := by
  constructor
  · intro h
    simp [Dfm.fit, vstack, h]
  · intro s' hok hnil
    simp [Dfm.fit, vstack, hnil] at hok

/-- C8 witness: a freshly constructed `Dfm` has no embeddings and its
`fit()` fails with the `vstack` error. -/
theorem Dfm.fit_requires_embeddings_witness :
    exDfm.fit = .error "vstack expects a non-empty TensorList" :=
  (Dfm.fit_requires_embeddings exDfm).1 rfl

/-- C9: `training_step` returns `None` and its only state effect is the
appended embedding — `model` (parameters and fitted data included) and
`score_type` are unchanged. -/
theorem Dfm.training_step_frame (s : Dfm) (b : Batch) :
    (s.training_step b).2 = none ∧
    (s.training_step b).1.model = s.model ∧
    (s.training_step b).1.score_type = s.score_type ∧
    (s.training_step b).1.embeddings
      = s.embeddings ++ [(s.model.get_features b.image).squeeze] :=
  ⟨rfl, rfl, rfl, rfl⟩

/-- C10: `trainer_arguments` returns exactly the dictionary
`{"gradient_clip_val": 0, "max_epochs": 1, "num_sanity_val_steps": 0}`
for every instance. -/
theorem Dfm.trainer_arguments_spec (s : Dfm) :
    s.trainer_arguments
      = [("gradient_clip_val", 0), ("max_epochs", 1), ("num_sanity_val_steps", 0)] := rfl

end DfmSpec
